import Mathlib

/-!
Verification of the UK Future Works Profile GeoPackage generators.

The repository consists of two Python scripts:

* `create_uk_future_works_profile.py` (the Schema Builder): creates a
  GeoPackage container, declares the base tables, pre-populates the
  codelist tables, declares the `future_works_unified` table and stores
  (without executing) the denormalization `INSERT ... SELECT` text.
* `populate_uk_future_works_profile.py` (the Sample Data Loader): opens an
  existing container, inserts a fixed sample dataset into the five base
  tables and then executes the denormalization join to fill
  `future_works_unified`.

This file gives a shallow embedding of both scripts.  A GeoPackage is a
record of tables; each table is `Option (List Row)` (`none` models a
container in which the table was never declared, so a `GetLayerByName`
access fails).  SQLite `NULL` is modelled by `Option`; timestamps coming
from `datetime.now()` are abstracted by a `Clock` parameter that supplies
the ISO string for "now" and the date string for "now + n days", exactly
the two forms the scripts use.  `OFTReal` values (only
`planneddepth_depth`) are embedded as exact rationals, e.g. the Python
literal `1.2` becomes `(12 : Rat)/10`.
-/

set_option maxHeartbeats 2000000

namespace UKFW

/-- Abstraction of `datetime.now()`: `nowIso` is
`datetime.now().isoformat()` and `dayPlus n` is
`(datetime.now() + timedelta(days=n)).strftime("%Y-%m-%d")`. -/
structure Clock where
  nowIso : String
  dayPlus : Nat → String

/-- SQLite equality used in `ON`/`WHERE` clauses: `NULL = x` is never
true; two non-`NULL` strings compare case-sensitively (BINARY
collation). -/
def sqlEq : Option String → Option String → Bool
  | some a, some b => a == b
  | _, _ => false

/-- SQLite string concatenation `x || y`: `NULL` if either side is
`NULL`. -/
def sqlConcat : Option String → Option String → Option String
  | some a, some b => some (a ++ b)
  | _, _ => none

/-- SQL `LEFT JOIN`: every left row is kept; rows with no match on the
right are paired with `none` (all right columns `NULL`). -/
def leftJoin {α β : Type} (xs : List α) (ys : List β) (p : α → β → Bool) :
    List (α × Option β) :=
  xs.flatMap fun x =>
    match ys.filter fun y => p x y with
    | [] => [(x, none)]
    | m :: ms => (m :: ms).map fun y => (x, some y)

/-- Row of the `organisation` table
(`_create_organisation_tables`).  Fields the loader leaves unset default
to `none` (SQL `NULL`). -/
structure OrgRow where
  systemid : Option String := none
  lifecyclestatus : Option String := none
  datelastupdated : Option String := none
  dateoflastlifecyclestatuschange : Option String := none
  systemloaddate : Option String := none
  name : Option String := none
  shortname : Option String := none
  organisationtype : Option String := none
  swacode : Option String := none
  websiteurl : Option String := none
  deriving DecidableEq

/-- Row of the `contactdetails` table. -/
structure ContactRow where
  systemid : Option String := none
  lifecyclestatus : Option String := none
  datelastupdated : Option String := none
  dateoflastlifecyclestatuschange : Option String := none
  systemloaddate : Option String := none
  organisationname : Option String := none
  contactdetailstype : Option String := none
  departmentname : Option String := none
  emailaddress : Option String := none
  telephonenumber : Option String := none
  dataproviderid_fk : Option String := none
  deriving DecidableEq

/-- Row of the `relationship_organisationtocontactdetails` table. -/
structure RelRow where
  systemid : Option String := none
  lifecyclestatus : Option String := none
  datelastupdated : Option String := none
  dateoflastlifecyclestatuschange : Option String := none
  systemloaddate : Option String := none
  linkedorganisationid : Option String := none
  linkedcontactdetailsid : Option String := none
  dataproviderid_fk : Option String := none
  deriving DecidableEq

/-- Row of the `plannedprogramme` table: the standard MUDDI fields
(`_add_standard_fields`) plus the programme-specific columns. -/
structure ProgRow where
  systemid : Option String := none
  lifecyclestatus : Option String := none
  datelastupdated : Option String := none
  dateoflastlifecyclestatuschange : Option String := none
  systemloaddate : Option String := none
  certification : Option String := none
  dataproviderassigneduniqueid : Option String := none
  dataproviderassigneduniqueidautoassigned : Option Int := none
  dataowner : Option String := none
  dataownerassigneduniqueid : Option String := none
  datasensitivitylevel : Option String := none
  programmename : Option String := none
  programmetype : Option String := none
  programmedescription : Option String := none
  plannedstartdate : Option String := none
  plannedenddate : Option String := none
  dataproviderid_fk : Option String := none
  deriving DecidableEq

/-- Row of the `networklink` table: the standard MUDDI fields plus the
network-link columns of `_create_future_works_tables`, and the line
geometry (an ordered list of 2-D British National Grid coordinates). -/
structure NLRow where
  systemid : Option String := none
  lifecyclestatus : Option String := none
  datelastupdated : Option String := none
  dateoflastlifecyclestatuschange : Option String := none
  systemloaddate : Option String := none
  certification : Option String := none
  dataproviderassigneduniqueid : Option String := none
  dataproviderassigneduniqueidautoassigned : Option Int := none
  dataowner : Option String := none
  dataownerassigneduniqueid : Option String := none
  datasensitivitylevel : Option String := none
  description : Option String := none
  featuretype : Option String := none
  utilitytype : Option String := none
  utilitysubtype : Option String := none
  plannedinstallationdate : Option String := none
  plannedmaterial : Option String := none
  plannedinstallationmethod : Option String := none
  planneddepth_depth : Option Rat := none
  planneddepth_unitofmeasure : Option String := none
  componenttype : Option String := none
  componentsubtype : Option String := none
  worktype : Option String := none
  plannedstartdate : Option String := none
  plannedenddate : Option String := none
  confidencelevel : Option String := none
  localereference : Option String := none
  localereferencetype : Option String := none
  objectname : Option String := none
  objectowner : Option String := none
  operator : Option String := none
  usrn : Option String := none
  operationalstatus : Option String := none
  dataproviderid_fk : Option String := none
  programmeid_fk : Option String := none
  conveyancemethod : Option String := none
  schemestatus : Option String := none
  cycleschemedetails : Option String := none
  geom : List (Int × Int) := []
  deriving DecidableEq

/-- Row of the derived `future_works_unified` table (`_create_views`). -/
structure UnifiedRow where
  work_id : Option String := none
  work_name : Option String := none
  description : Option String := none
  organisation_name : Option String := none
  organisation_shortname : Option String := none
  organisation_type : Option String := none
  swa_code : Option String := none
  utility_type : Option String := none
  utility_subtype : Option String := none
  conveyance_method : Option String := none
  usrn : Option String := none
  street_name : Option String := none
  work_type : Option String := none
  planned_start_date : Option String := none
  planned_end_date : Option String := none
  confidence_level : Option String := none
  material : Option String := none
  installation_method : Option String := none
  depth_metres : Option Rat := none
  programme_name : Option String := none
  programme_type : Option String := none
  contact_name : Option String := none
  contact_email : Option String := none
  contact_phone : Option String := none
  last_updated : Option String := none
  data_sensitivity : Option String := none
  operational_status : Option String := none
  geom : List (Int × Int) := []
  scheme_status : Option String := none
  cycle_scheme_details : Option String := none
  deriving DecidableEq

/-- Row of a codelist table (`_add_codelist_fields`). -/
structure CodeRow where
  systemid : Option String := none
  systemloaddate : Option String := none
  datelastupdated : Option String := none
  versionnumber : Option String := none
  versiondate : Option String := none
  value : Option String := none
  deriving DecidableEq

/-- Row of the `conveyancemethodvalue` codelist table, which carries the
extra `applicabledomains` column. -/
structure ConveyRow where
  systemid : Option String := none
  systemloaddate : Option String := none
  datelastupdated : Option String := none
  versionnumber : Option String := none
  versiondate : Option String := none
  value : Option String := none
  applicabledomains : Option String := none
  deriving DecidableEq

/-- An element of the joined relation
`networklink ⟕ organisation ⟕ plannedprogramme ⟕ relationship ⟕
contactdetails` before projection: the nested pairs mirror the
left-associated `LEFT JOIN` chain. -/
abbrev JoinTup :=
  ((((NLRow × Option OrgRow) × Option ProgRow) × Option RelRow) × Option ContactRow)

/-- The `FROM ... LEFT JOIN ...` chain of the unified-table
`INSERT ... SELECT` (identical in `_create_views` and
`_populate_unified_table`):

* `LEFT JOIN organisation org ON nl.dataproviderid_fk = org.systemid`
* `LEFT JOIN plannedprogramme prog ON nl.programmeid_fk = prog.systemid`
* `LEFT JOIN relationship_organisationtocontactdetails rel
     ON org.systemid = rel.linkedorganisationid`
* `LEFT JOIN contactdetails cd ON rel.linkedcontactdetailsid = cd.systemid`
-/
def joinedRows (nls : List NLRow) (orgs : List OrgRow) (progs : List ProgRow)
    (rels : List RelRow) (cds : List ContactRow) : List JoinTup :=
  leftJoin
    (leftJoin
      (leftJoin
        (leftJoin nls orgs fun nl o => sqlEq nl.dataproviderid_fk o.systemid)
        progs fun x p => sqlEq x.1.programmeid_fk p.systemid)
      rels fun x r => sqlEq (x.1.2.bind OrgRow.systemid) r.linkedorganisationid)
    cds fun x cd => sqlEq (x.2.bind RelRow.linkedcontactdetailsid) cd.systemid

/-- The `SELECT` projection of the unified-table insert.  `contact_name`
is the SQL expression
`cd.contactdetailstype || ' - ' || cd.departmentname` (left associated,
`NULL` if `cd` did not match or either column is `NULL`). -/
def toUnified : JoinTup → UnifiedRow
  | ((((nl, ob), pb), _rb), cb) =>
    { work_id := nl.systemid
      work_name := nl.objectname
      description := nl.description
      organisation_name := ob.bind OrgRow.name
      organisation_shortname := ob.bind OrgRow.shortname
      organisation_type := ob.bind OrgRow.organisationtype
      swa_code := ob.bind OrgRow.swacode
      utility_type := nl.utilitytype
      utility_subtype := nl.utilitysubtype
      conveyance_method := nl.conveyancemethod
      usrn := nl.usrn
      street_name := nl.localereference
      work_type := nl.worktype
      planned_start_date := nl.plannedstartdate
      planned_end_date := nl.plannedenddate
      confidence_level := nl.confidencelevel
      material := nl.plannedmaterial
      installation_method := nl.plannedinstallationmethod
      depth_metres := nl.planneddepth_depth
      programme_name := pb.bind ProgRow.programmename
      programme_type := pb.bind ProgRow.programmetype
      contact_name :=
        sqlConcat (sqlConcat (cb.bind ContactRow.contactdetailstype) (some " - "))
          (cb.bind ContactRow.departmentname)
      contact_email := cb.bind ContactRow.emailaddress
      contact_phone := cb.bind ContactRow.telephonenumber
      last_updated := nl.datelastupdated
      data_sensitivity := nl.datasensitivitylevel
      operational_status := nl.operationalstatus
      geom := nl.geom
      scheme_status := nl.schemestatus
      cycle_scheme_details := nl.cycleschemedetails }

/-- Full semantics of the unified-table `INSERT ... SELECT`,
parameterized by the lifecycle-status literal of the `WHERE` clause
(`'Active'` in the Schema Builder's declared text, `'active'` in the
Sample Data Loader's executed text). -/
def unifiedSelect (statusLit : String) (nls : List NLRow) (orgs : List OrgRow)
    (progs : List ProgRow) (rels : List RelRow) (cds : List ContactRow) :
    List UnifiedRow :=
  ((joinedRows nls orgs progs rels cds).filter fun x =>
      sqlEq x.1.1.1.1.lifecyclestatus (some statusLit)).map toUnified

/-- A GeoPackage container.  Each table is `Option (List Row)`: `none`
models a container in which that table was never declared (so
`GetLayerByName` yields `None` / SQL fails with "no such table").  The
two geometry-bearing layers record the EPSG code of the spatial
reference they were declared with. -/
structure GPkg where
  organisation : Option (List OrgRow)
  contactdetails : Option (List ContactRow)
  relationship_organisationtocontactdetails : Option (List RelRow)
  plannedprogramme : Option (List ProgRow)
  networklink : Option (List NLRow)
  future_works_unified : Option (List UnifiedRow)
  networklink_srid : Nat
  future_works_unified_srid : Nat
  lifecyclestatusvalue : Option (List CodeRow)
  organisationtypevalue : Option (List CodeRow)
  contactdetailstypevalue : Option (List CodeRow)
  plannedworkstatusvalue : Option (List CodeRow)
  programmetypevalue : Option (List CodeRow)
  worktypevalue : Option (List CodeRow)
  confidencelevelvalue : Option (List CodeRow)
  utilitytypevalue : Option (List CodeRow)
  materialvalue : Option (List CodeRow)
  installationmethodvalue : Option (List CodeRow)
  locationtypevalue : Option (List CodeRow)
  dataprovenancevalue : Option (List CodeRow)
  measurementunitsvalue : Option (List CodeRow)
  datasensitivitylevelvalue : Option (List CodeRow)
  operationalstatusvalue : Option (List CodeRow)
  cycleschemestatus : Option (List CodeRow)
  conveyancemethodvalue : Option (List ConveyRow)

/-! ### Codelist contents declared by `_create_codelist_tables` -/

def lifecyclestatusvalue_codes : List (String × String) :=
  [("active", "Active"), ("draft", "Draft"), ("under_review", "Under Review"),
   ("approved", "Approved"), ("superseded", "Superseded"),
   ("cancelled", "Cancelled"), ("archived", "Archived")]

def organisationtypevalue_codes : List (String × String) :=
  [("utility_company", "Utility Company"), ("local_authority", "Local Authority"),
   ("highway_authority", "Highway Authority"), ("contractor", "Contractor"),
   ("consultant", "Consultant"), ("regulatory_body", "Regulatory Body"),
   ("other", "Other")]

def contactdetailstypevalue_codes : List (String × String) :=
  [("planning_coordinator", "Planning Coordinator"),
   ("project_manager", "Project Manager"),
   ("emergency_contact", "Emergency Contact"),
   ("asset_protection", "Asset Protection"),
   ("general_enquiries", "General Enquiries"), ("other", "Other")]

def plannedworkstatusvalue_codes : List (String × String) :=
  [("proposed", "Proposed"), ("under_consultation", "Under Consultation"),
   ("approved", "Approved"), ("scheduled", "Scheduled"),
   ("in_preparation", "In Preparation"), ("in_progress", "In Progress"),
   ("completed", "Completed"), ("on_hold", "On Hold"),
   ("cancelled", "Cancelled"), ("deferred", "Deferred")]

def programmetypevalue_codes : List (String × String) :=
  [("capital_investment", "Capital Investment"),
   ("routine_maintenance", "Routine Maintenance"),
   ("emergency_preparedness", "Emergency Preparedness"),
   ("network_expansion", "Network Expansion"),
   ("asset_replacement", "Asset Replacement"),
   ("regulatory_compliance", "Regulatory Compliance"),
   ("customer_connection", "Customer Connection"),
   ("network_reinforcement", "Network Reinforcement"),
   ("cycle_network_development", "Cycle Network Development"),
   ("active_travel_scheme", "Active Travel Scheme"), ("other", "Other")]

def worktypevalue_codes : List (String × String) :=
  [("new_installation", "New Installation"),
   ("full_replacement", "Full Replacement"),
   ("partial_replacement", "Partial Replacement"), ("upgrade", "Upgrade"),
   ("repair", "Repair"), ("removal", "Removal"),
   ("abandonment", "Abandonment"), ("relocation", "Relocation"),
   ("protection_works", "Protection Works"),
   ("survey_investigation", "Survey/Investigation"),
   ("cycle_lane_installation", "Cycle Lane Installation"),
   ("cycle_path_construction", "Cycle Path Construction"),
   ("cycle_crossing_upgrade", "Cycle Crossing Upgrade"), ("other", "Other")]

def confidencelevelvalue_codes : List (String × String) :=
  [("confirmed", "Confirmed"), ("highly_likely", "Highly Likely"),
   ("likely", "Likely"), ("possible", "Possible"),
   ("under_review", "Under Review"), ("tentative", "Tentative")]

def utilitytypevalue_codes : List (String × String) :=
  [("electricity", "Electricity"), ("gas", "Gas"), ("water", "Water"),
   ("sewer", "Sewer"), ("telecommunications", "Telecommunications"),
   ("district_heating", "District Heating"),
   ("fuel_and_chemicals", "Fuel and Chemicals"),
   ("transport_signalling", "Transport Signalling"), ("drainage", "Drainage"),
   ("cycling_infrastructure", "Cycling Infrastructure"),
   ("transport_infrastructure", "Transport Infrastructure"),
   ("other", "Other")]

def materialvalue_codes : List (String × String) :=
  [("pe (polyethylene)", "PE (Polyethylene)"), ("pvc", "PVC"),
   ("ductile iron", "Ductile Iron"), ("steel", "Steel"),
   ("concrete", "Concrete"), ("clay", "Clay"), ("copper", "Copper"),
   ("fibre optic", "Fibre Optic"), ("composite", "Composite"),
   ("hdpe", "HDPE"), ("cast iron", "Cast Iron"), ("unknown", "Unknown"),
   ("other", "Other"), ("abs", "ABS"), ("asphalt", "Asphalt"),
   ("aluminium", "Aluminium"), ("asbestos cement", "Asbestos Cement"),
   ("brick", "Brick"), ("ceramic", "Ceramic"),
   ("coated steel", "Coated Steel"), ("earthen", "Earthen"),
   ("fiberglass", "Fiberglass"), ("galvanised iron", "Galvanised Iron"),
   ("galvanised steel", "Galvanised Steel"), ("geotextile", "Geotextile"),
   ("gravel", "Gravel"), ("iron", "Iron"), ("ldpe", "LDPE"),
   ("mdpe", "MDPE"), ("mopc", "MOPC"), ("optical fibre", "Optical Fibre"),
   ("pex", "PEX"), ("plastic", "Plastic"), ("spun iron", "Spun Iron"),
   ("stone", "Stone"), ("tile", "Tile"), ("transite", "Transite"),
   ("upvc", "uPVC"), ("wood", "Wood"), ("lead", "Lead"),
   ("pitch fibre", "Pitch Fibre"), ("carbon fibre", "Carbon Fibre")]

def installationmethodvalue_codes : List (String × String) :=
  [("open_cut", "Open Cut"), ("directional_drilling", "Directional Drilling"),
   ("moling", "Moling"), ("tunnelling", "Tunnelling"),
   ("thrust_boring", "Thrust Boring"), ("pipe_jacking", "Pipe Jacking"),
   ("slip_lining", "Slip Lining"), ("pipe_bursting", "Pipe Bursting"),
   ("trenching", "Trenching"), ("other", "Other")]

def locationtypevalue_codes : List (String × String) :=
  [("carriageway", "Carriageway"), ("footpath", "Footpath"),
   ("verge", "Verge"), ("cycle_path", "Cycle Path"), ("field", "Field"),
   ("other", "Other")]

def dataprovenancevalue_codes : List (String × String) :=
  [("asset_management_system", "Asset Management System"),
   ("planning_application", "Planning Application"),
   ("capital_programme", "Capital Programme"),
   ("regulatory_submission", "Regulatory Submission"),
   ("customer_request", "Customer Request"),
   ("engineering_assessment", "Engineering Assessment"),
   ("manual_entry", "Manual Entry"), ("other", "Other")]

def measurementunitsvalue_codes : List (String × String) :=
  [("metres", "Metres"), ("millimetres", "Millimetres"),
   ("kilometres", "Kilometres"), ("square_metres", "Square Metres"),
   ("degrees", "Degrees"), ("bar", "Bar"), ("kv", "kV"),
   ("unknown", "Unknown")]

def datasensitivitylevelvalue_codes : List (String × String) :=
  [("public", "Public"), ("restricted", "Restricted")]

def operationalstatusvalue_codes : List (String × String) :=
  [("abandoned", "Abandoned"), ("commissioned", "Commissioned"),
   ("decommissioned", "Decommissioned"),
   ("delete_before_installation", "Delete Before Installation"),
   ("in_service", "In Service"), ("installed", "Installed"),
   ("other", "Other"), ("out_of_commission", "Out Of Commission"),
   ("pending_abandonment", "Pending Abandonment"), ("proposed", "Proposed"),
   ("pending_removal", "Pending Removal"), ("removed", "Removed"),
   ("under_construction", "Under Construction"),
   ("unfit_for_service", "Unfit For Service"), ("unknown", "Unknown")]

def cycleschemestatus_codes : List (String × String) :=
  [("proposed", "Proposed"), ("feasibility_study", "Feasibility Study"),
   ("public_consultation", "Public Consultation"), ("approved", "Approved"),
   ("funded", "Funded"), ("planning_granted", "Planning Granted"),
   ("in_progress", "In Progress"), ("completed", "Completed"),
   ("canceled", "Canceled")]

def conveyancemethodvalue_codes : List (String × String × String) :=
  [("low_pressure", "Low Pressure", "Fuel And Chemicals,Gas,Water"),
   ("low_voltage", "Low Voltage", "Electricity"),
   ("pressure", "Pressure", "Fuel And Chemicals,Gas,Water"),
   ("gravity", "Gravity", "Drainage,Fuel And Chemicals,Sewer,Thermal,Water"),
   ("high_pressure", "High Pressure", "Fuel And Chemicals,Gas,Water"),
   ("high_voltage", "High Voltage", "Electricity"),
   ("unknown", "Unknown", "All"),
   ("other", "Other", "All"),
   ("syphon", "Syphon", "Drainage,Fuel And Chemicals,Sewer,Thermal,Water"),
   ("vacuum", "Vacuum", "Drainage,Fuel And Chemicals,Sewer,Thermal,Water"),
   ("intermediate_voltage", "Intermediate Voltage", "Electricity"),
   ("medium_voltage", "Medium Voltage", "Electricity"),
   ("intermediate_pressure", "Intermediate Pressure", "Fuel And Chemicals,Gas,Water"),
   ("medium_pressure", "Medium Pressure", "Fuel And Chemicals,Gas"),
   ("pumped", "Pumped", "Drainage,Fuel And Chemicals,Sewer,Thermal,Water"),
   ("regional_intermediate_pressure", "Regional Intermediate Pressure", "Fuel And Chemicals,Gas"),
   ("regional_high_pressure", "Regional High Pressure", "Fuel And Chemicals,Gas"),
   ("extra_high_voltage", "Extra High Voltage", "Electricity"),
   ("national_high_pressure", "National High Pressure", "Fuel And Chemicals,Gas,Water")]

/-- One codelist row as built by the codelist-population loop: `systemid`
and `value` from the fixed pair, the two timestamps from
`datetime.now().isoformat()`, the version columns left `NULL`. -/
def mkCodeRow (c : Clock) (sv : String × String) : CodeRow :=
  { systemid := some sv.1
    value := some sv.2
    systemloaddate := some c.nowIso
    datelastupdated := some c.nowIso }

/-- One `conveyancemethodvalue` row as built by its population loop. -/
def mkConveyRow (c : Clock) (svd : String × String × String) : ConveyRow :=
  { systemid := some svd.1
    value := some svd.2.1
    applicabledomains := some svd.2.2
    systemloaddate := some c.nowIso
    datelastupdated := some c.nowIso }

/-- The container as it stands when `create_geopackage` finishes: all
base tables and the unified table declared and empty, both
geometry-bearing layers on EPSG:27700 (British National Grid), every
codelist table populated with its fixed enumeration. -/
def freshGpkg (c : Clock) : GPkg :=
  { organisation := some []
    contactdetails := some []
    relationship_organisationtocontactdetails := some []
    plannedprogramme := some []
    networklink := some []
    future_works_unified := some []
    networklink_srid := 27700
    future_works_unified_srid := 27700
    lifecyclestatusvalue := some (lifecyclestatusvalue_codes.map (mkCodeRow c))
    organisationtypevalue := some (organisationtypevalue_codes.map (mkCodeRow c))
    contactdetailstypevalue := some (contactdetailstypevalue_codes.map (mkCodeRow c))
    plannedworkstatusvalue := some (plannedworkstatusvalue_codes.map (mkCodeRow c))
    programmetypevalue := some (programmetypevalue_codes.map (mkCodeRow c))
    worktypevalue := some (worktypevalue_codes.map (mkCodeRow c))
    confidencelevelvalue := some (confidencelevelvalue_codes.map (mkCodeRow c))
    utilitytypevalue := some (utilitytypevalue_codes.map (mkCodeRow c))
    materialvalue := some (materialvalue_codes.map (mkCodeRow c))
    installationmethodvalue := some (installationmethodvalue_codes.map (mkCodeRow c))
    locationtypevalue := some (locationtypevalue_codes.map (mkCodeRow c))
    dataprovenancevalue := some (dataprovenancevalue_codes.map (mkCodeRow c))
    measurementunitsvalue := some (measurementunitsvalue_codes.map (mkCodeRow c))
    datasensitivitylevelvalue := some (datasensitivitylevelvalue_codes.map (mkCodeRow c))
    operationalstatusvalue := some (operationalstatusvalue_codes.map (mkCodeRow c))
    cycleschemestatus := some (cycleschemestatus_codes.map (mkCodeRow c))
    conveyancemethodvalue := some (conveyancemethodvalue_codes.map (mkConveyRow c)) }

/-- `UKFutureWorksProfileGeoPackage.create_geopackage`: the pre-existing
file at `path` (if any) is `os.remove`d unconditionally and a fresh
container is created there; no other path is touched.  The filesystem is
a partial map from paths to containers. -/
def create_geopackage (fs : String → Option GPkg) (c : Clock) (path : String) :
    String → Option GPkg :=
  fun p => if p = path then some (freshGpkg c) else fs p

/-! ### Sample data inserted by the Sample Data Loader -/

/-- One entry of the `organisations` list in `_populate_organisations`. -/
structure OrgData where
  systemid : String
  name : String
  shortname : String
  organisationtype : String
  swacode : String
  websiteurl : String

def organisationsData : List OrgData :=
  [{ systemid := "org-001", name := "Northern Gas Networks", shortname := "NGN",
     organisationtype := "utility_company", swacode := "NGN",
     websiteurl := "https://www.northerngasnetworks.co.uk" },
   { systemid := "org-002", name := "Yorkshire Water Services", shortname := "YWS",
     organisationtype := "utility_company", swacode := "YWS",
     websiteurl := "https://www.yorkshirewater.com" },
   { systemid := "org-003", name := "Northern Powergrid", shortname := "NPG",
     organisationtype := "utility_company", swacode := "NPG",
     websiteurl := "https://www.northernpowergrid.com" },
   { systemid := "org-004", name := "BT Openreach", shortname := "BTO",
     organisationtype := "utility_company", swacode := "BTO",
     websiteurl := "https://www.openreach.com" },
   { systemid := "org-005", name := "Leeds City Council Highways", shortname := "LCC",
     organisationtype := "highway_authority", swacode := "LCC",
     websiteurl := "https://www.leeds.gov.uk" }]

/-- The feature built for one organisation entry: the dict fields plus
`lifecyclestatus = "active"` and the three `datetime.now()` stamps. -/
def mkOrgRow (c : Clock) (d : OrgData) : OrgRow :=
  { systemid := some d.systemid
    lifecyclestatus := some "active"
    datelastupdated := some c.nowIso
    dateoflastlifecyclestatuschange := some c.nowIso
    systemloaddate := some c.nowIso
    name := some d.name
    shortname := some d.shortname
    organisationtype := some d.organisationtype
    swacode := some d.swacode
    websiteurl := some d.websiteurl }

def organisationRows (c : Clock) : List OrgRow :=
  organisationsData.map (mkOrgRow c)

/-- One entry of the `contacts` list in `_populate_contact_details`. -/
structure ContactData where
  systemid : String
  organisationname : String
  contactdetailstype : String
  departmentname : String
  emailaddress : String
  telephonenumber : String
  dataproviderid_fk : String

def contactsData : List ContactData :=
  [{ systemid := "ctc-001", organisationname := "Northern Gas Networks",
     contactdetailstype := "planning_coordinator", departmentname := "Network Planning",
     emailaddress := "planning@northerngas.co.uk",
     telephonenumber := "0800 040 7766", dataproviderid_fk := "org-001" },
   { systemid := "ctc-002", organisationname := "Yorkshire Water Services",
     contactdetailstype := "asset_protection", departmentname := "Asset Management",
     emailaddress := "assetprotection@yorkshirewater.co.uk",
     telephonenumber := "0345 124 2424", dataproviderid_fk := "org-002" },
   { systemid := "ctc-003", organisationname := "Northern Powergrid",
     contactdetailstype := "project_manager", departmentname := "Capital Projects",
     emailaddress := "projects@northernpowergrid.com",
     telephonenumber := "0800 011 3332", dataproviderid_fk := "org-003" },
   { systemid := "ctc-004", organisationname := "BT Openreach",
     contactdetailstype := "planning_coordinator", departmentname := "Network Development",
     emailaddress := "networkplanning@openreach.co.uk",
     telephonenumber := "0800 023 2023", dataproviderid_fk := "org-004" },
   { systemid := "ctc-005", organisationname := "Leeds City Council Highways",
     contactdetailstype := "emergency_contact", departmentname := "Highway Services",
     emailaddress := "highways@leeds.gov.uk",
     telephonenumber := "0113 222 4444", dataproviderid_fk := "org-005" }]

def mkContactRow (c : Clock) (d : ContactData) : ContactRow :=
  { systemid := some d.systemid
    lifecyclestatus := some "active"
    datelastupdated := some c.nowIso
    dateoflastlifecyclestatuschange := some c.nowIso
    systemloaddate := some c.nowIso
    organisationname := some d.organisationname
    contactdetailstype := some d.contactdetailstype
    departmentname := some d.departmentname
    emailaddress := some d.emailaddress
    telephonenumber := some d.telephonenumber
    dataproviderid_fk := some d.dataproviderid_fk }

def contactRows (c : Clock) : List ContactRow :=
  contactsData.map (mkContactRow c)

/-- The `relationships` tuples of `_populate_organisation_relationships`:
`(rel_id, org_id, contact_id, provider_id)`. -/
def relationshipsData : List (String × String × String × String) :=
  [("rel-001", "org-001", "ctc-001", "org-001"),
   ("rel-002", "org-002", "ctc-002", "org-002"),
   ("rel-003", "org-003", "ctc-003", "org-003"),
   ("rel-004", "org-004", "ctc-004", "org-004"),
   ("rel-005", "org-005", "ctc-005", "org-005")]

def mkRelRow (c : Clock) (d : String × String × String × String) : RelRow :=
  { systemid := some d.1
    lifecyclestatus := some "active"
    datelastupdated := some c.nowIso
    dateoflastlifecyclestatuschange := some c.nowIso
    systemloaddate := some c.nowIso
    linkedorganisationid := some d.2.1
    linkedcontactdetailsid := some d.2.2.1
    dataproviderid_fk := some d.2.2.2 }

def relationshipRows (c : Clock) : List RelRow :=
  relationshipsData.map (mkRelRow c)

/-- One entry of the `programmes` list in `_populate_planned_programmes`. -/
structure ProgData where
  systemid : String
  programmename : String
  programmetype : String
  programmedescription : String
  plannedstartdate : String
  plannedenddate : String
  dataproviderid_fk : String
  datasensitivitylevel : String

def programmesData (c : Clock) : List ProgData :=
  [{ systemid := "prg-001",
     programmename := "Leeds City Centre Gas Main Replacement 2025",
     programmetype := "asset_replacement",
     programmedescription := "Replacement of aging cast iron mains with modern PE pipes in Leeds city centre",
     plannedstartdate := c.dayPlus 60, plannedenddate := c.dayPlus 240,
     dataproviderid_fk := "org-001", datasensitivitylevel := "restricted" },
   { systemid := "prg-002",
     programmename := "Yorkshire Clean Water Investment Programme",
     programmetype := "capital_investment",
     programmedescription := "Major investment to improve water quality and reduce leakage",
     plannedstartdate := c.dayPlus 90, plannedenddate := c.dayPlus 365,
     dataproviderid_fk := "org-002", datasensitivitylevel := "public" },
   { systemid := "prg-003",
     programmename := "Smart Grid Upgrade Programme",
     programmetype := "network_reinforcement",
     programmedescription := "Installation of smart meters and grid monitoring equipment",
     plannedstartdate := c.dayPlus 30, plannedenddate := c.dayPlus 180,
     dataproviderid_fk := "org-003", datasensitivitylevel := "restricted" },
   { systemid := "prg-004",
     programmename := "Fibre to the Premises Rollout - Leeds",
     programmetype := "network_expansion",
     programmedescription := "FTTP deployment to residential and business premises",
     plannedstartdate := c.dayPlus 45, plannedenddate := c.dayPlus 300,
     dataproviderid_fk := "org-004", datasensitivitylevel := "public" },
   { systemid := "prg-005",
     programmename := "Leeds City Centre Cycling Infrastructure Development",
     programmetype := "cycle_network_development",
     programmedescription := "Development of segregated cycle routes in the city center",
     plannedstartdate := c.dayPlus 120, plannedenddate := c.dayPlus 365,
     dataproviderid_fk := "org-005", datasensitivitylevel := "public" }]

/-- The feature built for one programme entry: every dict field, plus the
standard fields set in the loop (`lifecyclestatus = "active"`, the three
timestamps, `certification = "Provisional"`,
`dataproviderassigneduniqueid = systemid`, auto-assigned flag `1`). -/
def mkProgRow (c : Clock) (d : ProgData) : ProgRow :=
  { systemid := some d.systemid
    programmename := some d.programmename
    programmetype := some d.programmetype
    programmedescription := some d.programmedescription
    plannedstartdate := some d.plannedstartdate
    plannedenddate := some d.plannedenddate
    dataproviderid_fk := some d.dataproviderid_fk
    datasensitivitylevel := some d.datasensitivitylevel
    lifecyclestatus := some "active"
    datelastupdated := some c.nowIso
    dateoflastlifecyclestatuschange := some c.nowIso
    systemloaddate := some c.nowIso
    certification := some "Provisional"
    dataproviderassigneduniqueid := some d.systemid
    dataproviderassigneduniqueidautoassigned := some 1 }

def programmeRows (c : Clock) : List ProgRow :=
  (programmesData c).map (mkProgRow c)

/-- One entry of the `links` list in `_populate_network_links`.
`programmeid_fk` is `Option` because `nl-009` carries `None` (skipped by
the `value is not None` guard, so the column stays `NULL`);
`cycleschemedetails` is `Option` because only `nl-010` has the key. -/
structure LinkData where
  systemid : String
  objectname : String
  description : String
  utilitytype : String
  utilitysubtype : String
  plannedmaterial : String
  plannedinstallationmethod : String
  planneddepth_depth : Rat
  worktype : String
  plannedstartdate : String
  plannedenddate : String
  confidencelevel : String
  usrn : String
  operationalstatus : String
  localereference : String
  localereferencetype : String
  dataproviderid_fk : String
  programmeid_fk : Option String
  conveyancemethod : String
  schemestatus : String
  cycleschemedetails : Option String := none
  coords : List (Int × Int)
  deriving Inhabited

def linksData (c : Clock) : List LinkData :=
  [{ systemid := "nl-001", objectname := "Park Lane Gas Main",
     description := "315mm PE gas main replacement",
     utilitytype := "gas", utilitysubtype := "Medium Pressure",
     plannedmaterial := "pe (polyethylene)", plannedinstallationmethod := "open_cut",
     planneddepth_depth := (12 : Rat)/10, worktype := "full_replacement",
     plannedstartdate := c.dayPlus 75, plannedenddate := c.dayPlus 90,
     confidencelevel := "confirmed", usrn := "40701234",
     operationalstatus := "in_service", localereference := "Park Lane",
     localereferencetype := "Street Name", dataproviderid_fk := "org-001",
     programmeid_fk := some "prg-001", conveyancemethod := "medium_pressure",
     schemestatus := "approved",
     coords := [(430100, 433875), (430300, 433875)] },
   { systemid := "nl-002", objectname := "The Headrow Gas Main Extension",
     description := "New 250mm PE gas main",
     utilitytype := "gas", utilitysubtype := "Medium Pressure",
     plannedmaterial := "pe (polyethylene)",
     plannedinstallationmethod := "directional_drilling",
     planneddepth_depth := (15 : Rat)/10, worktype := "new_installation",
     plannedstartdate := c.dayPlus 80, plannedenddate := c.dayPlus 95,
     confidencelevel := "highly_likely", usrn := "40701235",
     operationalstatus := "proposed", localereference := "The Headrow",
     localereferencetype := "Street Name", dataproviderid_fk := "org-001",
     programmeid_fk := some "prg-001", conveyancemethod := "medium_pressure",
     schemestatus := "approved",
     coords := [(430300, 433875), (430500, 433875), (430500, 433925)] },
   { systemid := "nl-003", objectname := "Kirkstall Road Water Main",
     description := "300mm ductile iron water main renewal",
     utilitytype := "water", utilitysubtype := "Potable Water",
     plannedmaterial := "ductile iron", plannedinstallationmethod := "open_cut",
     planneddepth_depth := (10 : Rat)/10, worktype := "full_replacement",
     plannedstartdate := c.dayPlus 100, plannedenddate := c.dayPlus 130,
     confidencelevel := "highly_likely", usrn := "40705678",
     operationalstatus := "unfit_for_service",
     localereference := "Kirkstall Road (A65)", localereferencetype := "Road Name",
     dataproviderid_fk := "org-002", programmeid_fk := some "prg-002",
     conveyancemethod := "pressure", schemestatus := "in_progress",
     coords := [(428500, 434175), (428750, 434175), (429000, 434175)] },
   { systemid := "nl-004", objectname := "Commercial Street Water Connection",
     description := "New 150mm water main for development",
     utilitytype := "water", utilitysubtype := "Potable Water",
     plannedmaterial := "hdpe", plannedinstallationmethod := "moling",
     planneddepth_depth := (8 : Rat)/10, worktype := "new_installation",
     plannedstartdate := c.dayPlus 45, plannedenddate := c.dayPlus 50,
     confidencelevel := "confirmed", usrn := "40702345",
     operationalstatus := "under_construction",
     localereference := "Commercial Street", localereferencetype := "Street Name",
     dataproviderid_fk := "org-002", programmeid_fk := some "prg-002",
     conveyancemethod := "pressure", schemestatus := "approved",
     coords := [(430600, 433500), (430600, 433600)] },
   { systemid := "nl-005", objectname := "City Square 11kV Cable",
     description := "11kV HV cable upgrade",
     utilitytype := "electricity", utilitysubtype := "High Voltage",
     plannedmaterial := "steel", plannedinstallationmethod := "directional_drilling",
     planneddepth_depth := (15 : Rat)/10, worktype := "removal",
     plannedstartdate := c.dayPlus 45, plannedenddate := c.dayPlus 60,
     confidencelevel := "confirmed", usrn := "40703456",
     operationalstatus := "abandoned", localereference := "City Square",
     localereferencetype := "Named Location", dataproviderid_fk := "org-003",
     programmeid_fk := some "prg-003", conveyancemethod := "high_voltage",
     schemestatus := "approved",
     coords := [(430450, 433600), (430450, 433500), (430350, 433500)] },
   { systemid := "nl-006", objectname := "Wellington Street LV Feed",
     description := "New LV cable for street lighting",
     utilitytype := "electricity", utilitysubtype := "Street Lighting",
     plannedmaterial := "copper", plannedinstallationmethod := "open_cut",
     planneddepth_depth := (6 : Rat)/10, worktype := "new_installation",
     plannedstartdate := c.dayPlus 50, plannedenddate := c.dayPlus 55,
     confidencelevel := "likely", usrn := "40704567",
     operationalstatus := "proposed", localereference := "Wellington Street",
     localereferencetype := "Street Name", dataproviderid_fk := "org-003",
     programmeid_fk := some "prg-003", conveyancemethod := "low_voltage",
     schemestatus := "proposed",
     coords := [(430200, 433400), (430300, 433400), (430400, 433400)] },
   { systemid := "nl-007", objectname := "Hyde Park Fibre Route",
     description := "96-fibre optic cable installation",
     utilitytype := "telecommunications", utilitysubtype := "Fibre Optic",
     plannedmaterial := "fibre optic", plannedinstallationmethod := "moling",
     planneddepth_depth := (6 : Rat)/10, worktype := "new_installation",
     plannedstartdate := c.dayPlus 60, plannedenddate := c.dayPlus 75,
     confidencelevel := "likely", usrn := "40706789",
     operationalstatus := "proposed", localereference := "Hyde Park Corner",
     localereferencetype := "Area Name", dataproviderid_fk := "org-004",
     programmeid_fk := some "prg-004", conveyancemethod := "other",
     schemestatus := "public_consultation",
     coords := [(429800, 435150), (429900, 435150), (430000, 435150)] },
   { systemid := "nl-008", objectname := "Woodhouse Lane Duct Route",
     description := "Replace existing copper with fibre",
     utilitytype := "telecommunications", utilitysubtype := "Fibre Optic",
     plannedmaterial := "fibre optic", plannedinstallationmethod := "other",
     planneddepth_depth := (5 : Rat)/10, worktype := "full_replacement",
     plannedstartdate := c.dayPlus 65, plannedenddate := c.dayPlus 70,
     confidencelevel := "highly_likely", usrn := "40707890",
     operationalstatus := "in_service", localereference := "Woodhouse Lane",
     localereferencetype := "Street Name", dataproviderid_fk := "org-004",
     programmeid_fk := some "prg-004", conveyancemethod := "other",
     schemestatus := "funded",
     coords := [(429700, 435250), (429800, 435250), (429900, 435250)] },
   { systemid := "nl-010", objectname := "The Headrow Cycle Lane",
     description := "New segregated cycle lane installation",
     utilitytype := "cycling_infrastructure", utilitysubtype := "Cycle Lane",
     plannedmaterial := "asphalt", plannedinstallationmethod := "open_cut",
     planneddepth_depth := (3 : Rat)/10, worktype := "new_installation",
     plannedstartdate := c.dayPlus 120, plannedenddate := c.dayPlus 180,
     confidencelevel := "likely", usrn := "40701236",
     operationalstatus := "proposed", localereference := "The Headrow",
     localereferencetype := "Street Name", dataproviderid_fk := "org-005",
     programmeid_fk := some "prg-005", conveyancemethod := "other",
     schemestatus := "public_consultation",
     cycleschemedetails := some "2m wide segregated cycle lane with junction improvements and new signaling",
     coords := [(430350, 433800), (430450, 433800), (430550, 433800)] },
   { systemid := "nl-009", objectname := "Otley Road Multi-Utility Corridor",
     description := "Shared trench for multiple utilities",
     utilitytype := "other", utilitysubtype := "Other",
     plannedmaterial := "other", plannedinstallationmethod := "open_cut",
     planneddepth_depth := (10 : Rat)/10, worktype := "relocation",
     plannedstartdate := c.dayPlus 150, plannedenddate := c.dayPlus 200,
     confidencelevel := "possible", usrn := "40709012",
     operationalstatus := "in_service",
     localereference := "A660/Shaw Lane Junction", localereferencetype := "Junction",
     dataproviderid_fk := "org-005", programmeid_fk := none,
     conveyancemethod := "other", schemestatus := "feasibility_study",
     coords := [(428200, 437400), (428300, 437400), (428400, 437400)] }]

/-- The feature built for one link entry: every dict field, the standard
fields set after the dict loop (`lifecyclestatus = "active"`, three
timestamps, depth unit `"metres"`, sensitivity `"public"`, feature type
`"NetworkLink"`, `componenttype = utilitytype`,
`plannedinstallationdate = plannedstartdate`,
`dataowner`/`operator`/`objectowner = dataproviderid_fk`) and the line
geometry built point-by-point from `coords`. -/
def mkNetworkLinkRow (c : Clock) (d : LinkData) : NLRow :=
  { systemid := some d.systemid
    objectname := some d.objectname
    description := some d.description
    utilitytype := some d.utilitytype
    utilitysubtype := some d.utilitysubtype
    plannedmaterial := some d.plannedmaterial
    plannedinstallationmethod := some d.plannedinstallationmethod
    planneddepth_depth := some d.planneddepth_depth
    worktype := some d.worktype
    plannedstartdate := some d.plannedstartdate
    plannedenddate := some d.plannedenddate
    confidencelevel := some d.confidencelevel
    usrn := some d.usrn
    operationalstatus := some d.operationalstatus
    localereference := some d.localereference
    localereferencetype := some d.localereferencetype
    dataproviderid_fk := some d.dataproviderid_fk
    programmeid_fk := d.programmeid_fk
    conveyancemethod := some d.conveyancemethod
    schemestatus := some d.schemestatus
    cycleschemedetails := d.cycleschemedetails
    lifecyclestatus := some "active"
    datelastupdated := some c.nowIso
    dateoflastlifecyclestatuschange := some c.nowIso
    systemloaddate := some c.nowIso
    planneddepth_unitofmeasure := some "metres"
    datasensitivitylevel := some "public"
    featuretype := some "NetworkLink"
    componenttype := some d.utilitytype
    plannedinstallationdate := some d.plannedstartdate
    dataowner := some d.dataproviderid_fk
    operator := some d.dataproviderid_fk
    objectowner := some d.dataproviderid_fk
    geom := d.coords }

def networkLinkRows (c : Clock) : List NLRow :=
  (linksData c).map (mkNetworkLinkRow c)

/-! ### The loader's phases (`populate_geopackage`) -/

/-- `_populate_organisations`: `GetLayerByName("organisation")` (fails if
the table was never declared), then one `CreateFeature` per entry. -/
def populate_organisations (c : Clock) (g : GPkg) : Option GPkg :=
  match g.organisation with
  | none => none
  | some rows => some { g with organisation := some (rows ++ organisationRows c) }

/-- `_populate_contact_details`. -/
def populate_contact_details (c : Clock) (g : GPkg) : Option GPkg :=
  match g.contactdetails with
  | none => none
  | some rows => some { g with contactdetails := some (rows ++ contactRows c) }

/-- `_populate_organisation_relationships`. -/
def populate_organisation_relationships (c : Clock) (g : GPkg) : Option GPkg :=
  match g.relationship_organisationtocontactdetails with
  | none => none
  | some rows =>
      some { g with relationship_organisationtocontactdetails :=
                      some (rows ++ relationshipRows c) }

/-- `_populate_planned_programmes`. -/
def populate_planned_programmes (c : Clock) (g : GPkg) : Option GPkg :=
  match g.plannedprogramme with
  | none => none
  | some rows => some { g with plannedprogramme := some (rows ++ programmeRows c) }

/-- `_populate_network_links`. -/
def populate_network_links (c : Clock) (g : GPkg) : Option GPkg :=
  match g.networklink with
  | none => none
  | some rows => some { g with networklink := some (rows ++ networkLinkRows c) }

/-- `_populate_unified_table`: executes the `INSERT ... SELECT` with the
`WHERE nl.lifecyclestatus = 'active'` filter against the six tables the
statement names; fails if any of them is missing. -/
def populate_unified_table (g : GPkg) : Option GPkg :=
  match g.networklink, g.organisation, g.plannedprogramme,
        g.relationship_organisationtocontactdetails, g.contactdetails,
        g.future_works_unified with
  | some nls, some orgs, some progs, some rels, some cds, some us =>
      some { g with future_works_unified :=
                      some (us ++ unifiedSelect "active" nls orgs progs rels cds) }
  | _, _, _, _, _, _ => none

/-- `UKFutureWorksProfileGeoPackagePopulate.populate_geopackage`: the six
phases run in source order; an exception in a phase aborts the run,
leaving every write of the completed earlier phases in place (writes go
straight to the container) and surfacing a non-`none` error. -/
def populate_geopackage (c : Clock) (g : GPkg) : GPkg × Option String :=
  match populate_organisations c g with
  | none => (g, some "table not found")
  | some g1 =>
    match populate_contact_details c g1 with
    | none => (g1, some "table not found")
    | some g2 =>
      match populate_organisation_relationships c g2 with
      | none => (g2, some "table not found")
      | some g3 =>
        match populate_planned_programmes c g3 with
        | none => (g3, some "table not found")
        | some g4 =>
          match populate_network_links c g4 with
          | none => (g4, some "table not found")
          | some g5 =>
            match populate_unified_table g5 with
            | none => (g5, some "table not found")
            | some g6 => (g6, none)

/-- The populate script's `main`: if no container exists at the target
path it prints an error telling the operator to run the creation script
first and exits with status 1 before opening or writing anything;
otherwise it runs the population (the boolean is `true` exactly when the
run succeeded, i.e. the process exits zero). -/
def populate_main (fs : String → Option GPkg) (c : Clock) (path : String) :
    (String → Option GPkg) × Bool :=
  match fs path with
  | none => (fs, false)
  | some g =>
    let r := populate_geopackage c g
    (fun p => if p = path then some r.1 else fs p, r.2.isNone)

/-- The end-to-end scenario: build the schema, then run the loader on the
freshly built container. -/
def loadedSample (c₁ c₂ : Clock) : GPkg × Option String :=
  populate_geopackage c₂ (freshGpkg c₁)

/-! ### The loader's run as a sequence of container operations

To reason about *when* each row is written, the loader's run is also
expressed as a flat sequence of events — one `CreateFeature` per base-row
insert, plus the final `ExecuteSQL` — applied left to right.
`populate_eq_runEvents` proves that this sequence computes exactly
`populate_geopackage`, so the order of `insertEvents` is the order in
which the loader writes. -/

/-- A single container operation performed by the loader. -/
inductive Ev
  | org (r : OrgRow)
  | contact (r : ContactRow)
  | rel (r : RelRow)
  | prog (r : ProgRow)
  | link (r : NLRow)
  | unifiedJoin

/-- Apply one event: a row insert appends to its table (failing when the
table was never declared), `unifiedJoin` executes the
`INSERT ... SELECT`. -/
def applyEv (g : GPkg) : Ev → Option GPkg
  | .org r =>
      match g.organisation with
      | none => none
      | some rows => some { g with organisation := some (rows ++ [r]) }
  | .contact r =>
      match g.contactdetails with
      | none => none
      | some rows => some { g with contactdetails := some (rows ++ [r]) }
  | .rel r =>
      match g.relationship_organisationtocontactdetails with
      | none => none
      | some rows =>
          some { g with relationship_organisationtocontactdetails :=
                          some (rows ++ [r]) }
  | .prog r =>
      match g.plannedprogramme with
      | none => none
      | some rows => some { g with plannedprogramme := some (rows ++ [r]) }
  | .link r =>
      match g.networklink with
      | none => none
      | some rows => some { g with networklink := some (rows ++ [r]) }
  | .unifiedJoin => populate_unified_table g

/-- Run a sequence of events, stopping at the first failure and keeping
the writes made so far. -/
def runEvents : GPkg → List Ev → GPkg × Option String
  | g, [] => (g, none)
  | g, e :: es =>
    match applyEv g e with
    | none => (g, some "table not found")
    | some g' => runEvents g' es

/-- The loader's full event sequence, in execution order: all
organisation inserts, then contacts, then relationships, then
programmes, then network links, then the single unified-table join. -/
def insertEvents (c : Clock) : List Ev :=
  (organisationRows c).map Ev.org ++ (contactRows c).map Ev.contact ++
    (relationshipRows c).map Ev.rel ++ (programmeRows c).map Ev.prog ++
    (networkLinkRows c).map Ev.link ++ [Ev.unifiedJoin]

/-- The identifying content of an event: which kind of row it writes and
the system-id / logical-foreign-key columns of that row.  This is all
the ordering claims refer to. -/
inductive EvKey
  | org (sid : Option String)
  | contact (sid providerId : Option String)
  | rel (sid orgId contactId : Option String)
  | prog (sid providerId : Option String)
  | link (sid providerId progId : Option String)
  | unifiedJoin
  deriving DecidableEq, BEq

def evKey : Ev → EvKey
  | .org r => .org r.systemid
  | .contact r => .contact r.systemid r.dataproviderid_fk
  | .rel r => .rel r.systemid r.linkedorganisationid r.linkedcontactdetailsid
  | .prog r => .prog r.systemid r.dataproviderid_fk
  | .link r => .link r.systemid r.dataproviderid_fk r.programmeid_fk
  | .unifiedJoin => .unifiedJoin

/-- Phase rank of an event, following the loader's phase order. -/
def phaseRank : EvKey → Nat
  | .org _ => 0
  | .contact _ _ => 1
  | .rel _ _ _ => 2
  | .prog _ _ => 3
  | .link _ _ _ => 4
  | .unifiedJoin => 5

/-- The event sequence is sorted by phase: organisations, contacts,
relationships, programmes, network links, unified join. -/
def phasesOrdered : List EvKey → Bool
  | [] => true
  | [_] => true
  | a :: b :: t => decide (phaseRank a ≤ phaseRank b) && phasesOrdered (b :: t)

/-- Was an organisation with system id `oid` inserted strictly before
position `i`? -/
def orgInsertedBefore (ks : List EvKey) (i : Nat) (oid : String) : Bool :=
  (List.range i).any fun j => ks.getD j EvKey.unifiedJoin == EvKey.org (some oid)

/-- Was a programme with system id `pid` inserted strictly before
position `i`? -/
def progInsertedBefore (ks : List EvKey) (i : Nat) (pid : String) : Bool :=
  (List.range i).any fun j =>
    match ks.getD j EvKey.unifiedJoin with
    | EvKey.prog (some sid) _ => sid == pid
    | _ => false

/-- Referential discipline over an event sequence: every organisation id
referenced by a contact row (its provider id) or a relationship row (its
linked organisation id) was inserted earlier, and every programme id
referenced by a network link was inserted earlier. -/
def refsRespectDependencies (ks : List EvKey) : Bool :=
  (List.range ks.length).all fun i =>
    match ks.getD i EvKey.unifiedJoin with
    | EvKey.contact _ (some oid) => orgInsertedBefore ks i oid
    | EvKey.rel _ (some oid) _ => orgInsertedBefore ks i oid
    | EvKey.link _ _ (some pid) => progInsertedBefore ks i pid
    | _ => true

/-- Semantics of the `INSERT ... SELECT` text stored (but never
executed) in `self.unified_view_sql` by the Schema Builder's
`_create_views`: identical to the loader's statement except that its
`WHERE` clause reads `nl.lifecyclestatus = 'Active'`. -/
def unified_view_sql_rows (g : GPkg) : List UnifiedRow :=
  unifiedSelect "Active" (g.networklink.getD []) (g.organisation.getD [])
    (g.plannedprogramme.getD [])
    (g.relationship_organisationtocontactdetails.getD [])
    (g.contactdetails.getD [])

/-- Semantics of the `INSERT ... SELECT` text executed by the loader's
`_populate_unified_table` (`WHERE nl.lifecyclestatus = 'active'`). -/
def loader_unified_sql_rows (g : GPkg) : List UnifiedRow :=
  unifiedSelect "active" (g.networklink.getD []) (g.organisation.getD [])
    (g.plannedprogramme.getD [])
    (g.relationship_organisationtocontactdetails.getD [])
    (g.contactdetails.getD [])

/-- The summary report's utility-type distribution: how many
`networklink` rows carry a given `utilitytype` value. -/
def utilityTypeCount (g : GPkg) (u : String) : Nat :=
  ((g.networklink.getD []).filter fun nl => nl.utilitytype == some u).length

/-- A fixed clock used to instantiate closed statements; the scripts
never branch on the timestamp values, so any clock exhibits the same
behaviour. -/
def dummyClock : Clock :=
  { nowIso := "2026-01-01T00:00:00", dayPlus := fun n => toString n }

/-- The identifying keys of the loader's event sequence, written out. -/
def sampleEventKeys : List EvKey :=
  [.org (some "org-001"), .org (some "org-002"), .org (some "org-003"),
   .org (some "org-004"), .org (some "org-005"),
   .contact (some "ctc-001") (some "org-001"),
   .contact (some "ctc-002") (some "org-002"),
   .contact (some "ctc-003") (some "org-003"),
   .contact (some "ctc-004") (some "org-004"),
   .contact (some "ctc-005") (some "org-005"),
   .rel (some "rel-001") (some "org-001") (some "ctc-001"),
   .rel (some "rel-002") (some "org-002") (some "ctc-002"),
   .rel (some "rel-003") (some "org-003") (some "ctc-003"),
   .rel (some "rel-004") (some "org-004") (some "ctc-004"),
   .rel (some "rel-005") (some "org-005") (some "ctc-005"),
   .prog (some "prg-001") (some "org-001"),
   .prog (some "prg-002") (some "org-002"),
   .prog (some "prg-003") (some "org-003"),
   .prog (some "prg-004") (some "org-004"),
   .prog (some "prg-005") (some "org-005"),
   .link (some "nl-001") (some "org-001") (some "prg-001"),
   .link (some "nl-002") (some "org-001") (some "prg-001"),
   .link (some "nl-003") (some "org-002") (some "prg-002"),
   .link (some "nl-004") (some "org-002") (some "prg-002"),
   .link (some "nl-005") (some "org-003") (some "prg-003"),
   .link (some "nl-006") (some "org-003") (some "prg-003"),
   .link (some "nl-007") (some "org-004") (some "prg-004"),
   .link (some "nl-008") (some "org-004") (some "prg-004"),
   .link (some "nl-010") (some "org-005") (some "prg-005"),
   .link (some "nl-009") (some "org-005") none,
   .unifiedJoin]

/-! ### Concrete fixtures for closed instantiations -/

/-- A network link whose provider and programme ids match nothing. -/
def nlOrphan : NLRow :=
  { systemid := some "nl-x", lifecyclestatus := some "active",
    dataproviderid_fk := some "org-x", programmeid_fk := some "prg-x" }

/-- A minimal link/organisation/relationship/contact chain that matches
end to end. -/
def wNl : NLRow :=
  { systemid := some "w-nl", lifecyclestatus := some "active",
    dataproviderid_fk := some "w-org" }

def wOrg : OrgRow :=
  { systemid := some "w-org", name := some "W Org" }

def wRel : RelRow :=
  { systemid := some "w-rel", linkedorganisationid := some "w-org",
    linkedcontactdetailsid := some "w-cd" }

def wCd : ContactRow :=
  { systemid := some "w-cd", contactdetailstype := some "tcode",
    departmentname := some "tdept" }

def wTup : JoinTup := ((((wNl, some wOrg), none), some wRel), some wCd)

/-- The first sample link (`nl-001`) at the fixed clock. -/
def wLink : LinkData := (linksData dummyClock).getD 0 default

/-- A filesystem with no container anywhere. -/
def emptyFs : String → Option GPkg := fun _ => none

/-- A schema-built container from which the `contactdetails` table is
missing. -/
def noContactsGpkg : GPkg :=
  { freshGpkg dummyClock with contactdetails := none }

/-! ### Generic lemmas about the embedding -/

theorem exists_mem_leftJoin {α β : Type} (xs : List α) (ys : List β)
    (p : α → β → Bool) {x : α} (hx : x ∈ xs) :
    ∃ ob, (x, ob) ∈ leftJoin xs ys p ∧
      ((ys.filter fun y => p x y) = [] → ob = none) ∧
      (∀ y, ob = some y → y ∈ ys ∧ p x y = true) := by
  rcases hf : ys.filter fun y => p x y with _ | ⟨y, ms⟩
  · refine ⟨none, ?_, fun _ => rfl, by simp⟩
    refine List.mem_flatMap.mpr ⟨x, hx, ?_⟩
    simp [hf]
  · refine ⟨some y, ?_, by simp [hf], ?_⟩
    · refine List.mem_flatMap.mpr ⟨x, hx, ?_⟩
      have hy : y ∈ ys.filter fun y => p x y := by simp [hf]
      simp only [hf, List.isEmpty_cons, if_neg]
      exact List.mem_map.mpr ⟨y, by simp, rfl⟩
    · intro y' hy'
      have : y ∈ ys ∧ p x y = true := by
        have := List.mem_filter.mp (show y ∈ ys.filter fun y => p x y by simp [hf])
        exact ⟨this.1, this.2⟩
      cases hy'
      exact this

theorem runEvents_cons_some {g g' : GPkg} {e : Ev} {es : List Ev}
    (h : applyEv g e = some g') : runEvents g (e :: es) = runEvents g' es := by
  simp [runEvents, h]

theorem runEvents_cons_none {g : GPkg} {e : Ev} {es : List Ev}
    (h : applyEv g e = none) :
    runEvents g (e :: es) = (g, some "table not found") := by
  simp [runEvents, h]

theorem runEvents_org_block (rs : List OrgRow) :
    ∀ (g : GPkg) (cur : List OrgRow), g.organisation = some cur →
    ∀ es, runEvents g (rs.map Ev.org ++ es) =
      runEvents { g with organisation := some (cur ++ rs) } es := by
  induction rs with
  | nil =>
    intro g cur hg es
    have hgeq : ({ g with organisation := some (cur ++ []) } : GPkg) = g := by
      cases g
      simp only at hg
      subst hg
      simp
    rw [List.map_nil, List.nil_append, hgeq]
  | cons r rs ih =>
    intro g cur hg es
    have h1 : applyEv g (Ev.org r) =
        some { g with organisation := some (cur ++ [r]) } := by
      simp [applyEv, hg]
    rw [List.map_cons, List.cons_append, runEvents_cons_some h1,
      ih { g with organisation := some (cur ++ [r]) } (cur ++ [r]) rfl es]
    simp [List.append_assoc]

theorem runEvents_contact_block (rs : List ContactRow) :
    ∀ (g : GPkg) (cur : List ContactRow), g.contactdetails = some cur →
    ∀ es, runEvents g (rs.map Ev.contact ++ es) =
      runEvents { g with contactdetails := some (cur ++ rs) } es := by
  induction rs with
  | nil =>
    intro g cur hg es
    have hgeq : ({ g with contactdetails := some (cur ++ []) } : GPkg) = g := by
      cases g
      simp only at hg
      subst hg
      simp
    rw [List.map_nil, List.nil_append, hgeq]
  | cons r rs ih =>
    intro g cur hg es
    have h1 : applyEv g (Ev.contact r) =
        some { g with contactdetails := some (cur ++ [r]) } := by
      simp [applyEv, hg]
    rw [List.map_cons, List.cons_append, runEvents_cons_some h1,
      ih { g with contactdetails := some (cur ++ [r]) } (cur ++ [r]) rfl es]
    simp [List.append_assoc]

theorem runEvents_rel_block (rs : List RelRow) :
    ∀ (g : GPkg) (cur : List RelRow),
      g.relationship_organisationtocontactdetails = some cur →
    ∀ es, runEvents g (rs.map Ev.rel ++ es) =
      runEvents
        { g with relationship_organisationtocontactdetails := some (cur ++ rs) }
        es := by
  induction rs with
  | nil =>
    intro g cur hg es
    have hgeq :
        ({ g with relationship_organisationtocontactdetails :=
                    some (cur ++ []) } : GPkg) = g := by
      cases g
      simp only at hg
      subst hg
      simp
    rw [List.map_nil, List.nil_append, hgeq]
  | cons r rs ih =>
    intro g cur hg es
    have h1 : applyEv g (Ev.rel r) =
        some { g with relationship_organisationtocontactdetails :=
                        some (cur ++ [r]) } := by
      simp [applyEv, hg]
    rw [List.map_cons, List.cons_append, runEvents_cons_some h1,
      ih { g with relationship_organisationtocontactdetails := some (cur ++ [r]) }
        (cur ++ [r]) rfl es]
    simp [List.append_assoc]

theorem runEvents_prog_block (rs : List ProgRow) :
    ∀ (g : GPkg) (cur : List ProgRow), g.plannedprogramme = some cur →
    ∀ es, runEvents g (rs.map Ev.prog ++ es) =
      runEvents { g with plannedprogramme := some (cur ++ rs) } es := by
  induction rs with
  | nil =>
    intro g cur hg es
    have hgeq : ({ g with plannedprogramme := some (cur ++ []) } : GPkg) = g := by
      cases g
      simp only at hg
      subst hg
      simp
    rw [List.map_nil, List.nil_append, hgeq]
  | cons r rs ih =>
    intro g cur hg es
    have h1 : applyEv g (Ev.prog r) =
        some { g with plannedprogramme := some (cur ++ [r]) } := by
      simp [applyEv, hg]
    rw [List.map_cons, List.cons_append, runEvents_cons_some h1,
      ih { g with plannedprogramme := some (cur ++ [r]) } (cur ++ [r]) rfl es]
    simp [List.append_assoc]

theorem runEvents_link_block (rs : List NLRow) :
    ∀ (g : GPkg) (cur : List NLRow), g.networklink = some cur →
    ∀ es, runEvents g (rs.map Ev.link ++ es) =
      runEvents { g with networklink := some (cur ++ rs) } es := by
  induction rs with
  | nil =>
    intro g cur hg es
    have hgeq : ({ g with networklink := some (cur ++ []) } : GPkg) = g := by
      cases g
      simp only at hg
      subst hg
      simp
    rw [List.map_nil, List.nil_append, hgeq]
  | cons r rs ih =>
    intro g cur hg es
    have h1 : applyEv g (Ev.link r) =
        some { g with networklink := some (cur ++ [r]) } := by
      simp [applyEv, hg]
    rw [List.map_cons, List.cons_append, runEvents_cons_some h1,
      ih { g with networklink := some (cur ++ [r]) } (cur ++ [r]) rfl es]
    simp [List.append_assoc]

theorem runEvents_block_none_org {g : GPkg} (hg : g.organisation = none)
    (es : List Ev) (rs : List OrgRow) (hrs : rs ≠ []) :
    runEvents g (rs.map Ev.org ++ es) = (g, some "table not found") := by
  cases rs with
  | nil => cases hrs rfl
  | cons r t =>
    rw [List.map_cons, List.cons_append,
      runEvents_cons_none (show applyEv g (Ev.org r) = none by simp [applyEv, hg])]

theorem runEvents_block_none_contact {g : GPkg} (hg : g.contactdetails = none)
    (es : List Ev) (rs : List ContactRow) (hrs : rs ≠ []) :
    runEvents g (rs.map Ev.contact ++ es) = (g, some "table not found") := by
  cases rs with
  | nil => cases hrs rfl
  | cons r t =>
    rw [List.map_cons, List.cons_append,
      runEvents_cons_none
        (show applyEv g (Ev.contact r) = none by simp [applyEv, hg])]

theorem runEvents_block_none_rel {g : GPkg}
    (hg : g.relationship_organisationtocontactdetails = none)
    (es : List Ev) (rs : List RelRow) (hrs : rs ≠ []) :
    runEvents g (rs.map Ev.rel ++ es) = (g, some "table not found") := by
  cases rs with
  | nil => cases hrs rfl
  | cons r t =>
    rw [List.map_cons, List.cons_append,
      runEvents_cons_none (show applyEv g (Ev.rel r) = none by simp [applyEv, hg])]

theorem runEvents_block_none_prog {g : GPkg} (hg : g.plannedprogramme = none)
    (es : List Ev) (rs : List ProgRow) (hrs : rs ≠ []) :
    runEvents g (rs.map Ev.prog ++ es) = (g, some "table not found") := by
  cases rs with
  | nil => cases hrs rfl
  | cons r t =>
    rw [List.map_cons, List.cons_append,
      runEvents_cons_none
        (show applyEv g (Ev.prog r) = none by simp [applyEv, hg])]

theorem runEvents_block_none_link {g : GPkg} (hg : g.networklink = none)
    (es : List Ev) (rs : List NLRow) (hrs : rs ≠ []) :
    runEvents g (rs.map Ev.link ++ es) = (g, some "table not found") := by
  cases rs with
  | nil => cases hrs rfl
  | cons r t =>
    rw [List.map_cons, List.cons_append,
      runEvents_cons_none
        (show applyEv g (Ev.link r) = none by simp [applyEv, hg])]

/-- The loader's phase-structured run computes exactly the row-by-row
event sequence: `insertEvents` is a faithful account of the order in
which `populate_geopackage` writes. -/
theorem populate_eq_runEvents (c : Clock) (g : GPkg) :
    populate_geopackage c g = runEvents g (insertEvents c) := by
  unfold insertEvents
  simp only [List.append_assoc]
  cases ho : g.organisation with
  | none =>
    rw [runEvents_block_none_org ho _ (organisationRows c)
      (by simp [organisationRows, organisationsData])]
    simp [populate_geopackage, populate_organisations, ho]
  | some cur =>
    rw [runEvents_org_block (organisationRows c) g cur ho]
    set g1 : GPkg := { g with organisation := some (cur ++ organisationRows c) }
      with hG1
    have h1 : populate_organisations c g = some g1 := by
      simp [populate_organisations, ho, hG1]
    cases hc : g.contactdetails with
    | none =>
      rw [runEvents_block_none_contact
        (show g1.contactdetails = none from hc) _ (contactRows c)
        (by simp [contactRows, contactsData])]
      simp [populate_geopackage, h1, populate_contact_details, hc]
    | some cur2 =>
      rw [runEvents_contact_block (contactRows c) g1 cur2
        (show g1.contactdetails = some cur2 from hc)]
      set g2 : GPkg := { g1 with contactdetails := some (cur2 ++ contactRows c) }
        with hG2
      have h2 : populate_contact_details c g1 = some g2 := by
        simp [populate_contact_details, hc, hG2, hG1]
      cases hr : g.relationship_organisationtocontactdetails with
      | none =>
        rw [runEvents_block_none_rel
          (show g2.relationship_organisationtocontactdetails = none from hr)
          _ (relationshipRows c) (by simp [relationshipRows, relationshipsData])]
        simp [populate_geopackage, h1, h2,
          populate_organisation_relationships, hr]
      | some cur3 =>
        rw [runEvents_rel_block (relationshipRows c) g2 cur3
          (show g2.relationship_organisationtocontactdetails = some cur3 from hr)]
        set g3 : GPkg :=
          { g2 with relationship_organisationtocontactdetails :=
                      some (cur3 ++ relationshipRows c) } with hG3
        have h3 : populate_organisation_relationships c g2 = some g3 := by
          simp [populate_organisation_relationships, hr, hG3, hG2, hG1]
        cases hp : g.plannedprogramme with
        | none =>
          rw [runEvents_block_none_prog
            (show g3.plannedprogramme = none from hp) _ (programmeRows c)
            (by simp [programmeRows, programmesData])]
          simp [populate_geopackage, h1, h2, h3, populate_planned_programmes, hp]
        | some cur4 =>
          rw [runEvents_prog_block (programmeRows c) g3 cur4
            (show g3.plannedprogramme = some cur4 from hp)]
          set g4 : GPkg :=
            { g3 with plannedprogramme := some (cur4 ++ programmeRows c) }
            with hG4
          have h4 : populate_planned_programmes c g3 = some g4 := by
            simp [populate_planned_programmes, hp, hG4, hG3, hG2, hG1]
          cases hn : g.networklink with
          | none =>
            rw [runEvents_block_none_link
              (show g4.networklink = none from hn) _ (networkLinkRows c)
              (by simp [networkLinkRows, linksData])]
            simp [populate_geopackage, h1, h2, h3, h4,
              populate_network_links, hn]
          | some cur5 =>
            rw [runEvents_link_block (networkLinkRows c) g4 cur5
              (show g4.networklink = some cur5 from hn)]
            set g5 : GPkg :=
              { g4 with networklink := some (cur5 ++ networkLinkRows c) }
              with hG5
            have h5 : populate_network_links c g4 = some g5 := by
              simp [populate_network_links, hn, hG5, hG4, hG3, hG2, hG1]
            cases hu : populate_unified_table g5 with
            | none =>
              rw [runEvents_cons_none
                (show applyEv g5 Ev.unifiedJoin = none from hu)]
              simp [populate_geopackage, h1, h2, h3, h4, h5, hu]
            | some g6 =>
              rw [runEvents_cons_some
                (show applyEv g5 Ev.unifiedJoin = some g6 from hu)]
              simp [populate_geopackage, h1, h2, h3, h4, h5, hu, runEvents]

/-! ### Claims -/

/-- Normal form of the end-to-end run: each phase appends its row list to
the empty table and the final join fills the unified table. -/
theorem loadedSample_eq (c₁ c₂ : Clock) :
    loadedSample c₁ c₂ =
      ({ freshGpkg c₁ with
          organisation := some (organisationRows c₂)
          contactdetails := some (contactRows c₂)
          relationship_organisationtocontactdetails :=
            some (relationshipRows c₂)
          plannedprogramme := some (programmeRows c₂)
          networklink := some (networkLinkRows c₂)
          future_works_unified := some (unifiedSelect "active"
            (networkLinkRows c₂) (organisationRows c₂) (programmeRows c₂)
            (relationshipRows c₂) (contactRows c₂)) }, none) := rfl

/-- C1: after the Sample Data Loader completes on a schema-built
container, `future_works_unified` holds exactly one row per
`networklink` row whose `lifecyclestatus` is the active-state code
`"active"`, in order — none dropped, none duplicated by the join chain,
and no other rows. -/
theorem unified_one_row_per_active_link (c₁ c₂ : Clock) :
    (loadedSample c₁ c₂).2 = none ∧
    ((loadedSample c₁ c₂).1.future_works_unified.getD []).map UnifiedRow.work_id =
      (((loadedSample c₁ c₂).1.networklink.getD []).filter fun nl =>
          sqlEq nl.lifecyclestatus (some "active")).map NLRow.systemid := by
  simp [loadedSample_eq, unifiedSelect, joinedRows, leftJoin, sqlEq, toUnified,
    networkLinkRows, linksData, mkNetworkLinkRow, organisationRows,
    organisationsData, mkOrgRow, programmeRows, programmesData, mkProgRow,
    relationshipRows, relationshipsData, mkRelRow, contactRows, contactsData,
    mkContactRow]

/-- C2: the join text declared by the Schema Builder (`unified_view_sql`)
and the join text executed by the Sample Data Loader do NOT insert the
same rows: on the sample-loaded container the builder's text (filter
`'Active'`) selects nothing while the loader's text (filter `'active'`)
selects one row per network link. -/
theorem unified_sql_texts_diverge (c₁ c₂ : Clock) :
    unified_view_sql_rows (loadedSample c₁ c₂).1 = [] ∧
    (loader_unified_sql_rows (loadedSample c₁ c₂).1).map UnifiedRow.work_id =
      [some "nl-001", some "nl-002", some "nl-003", some "nl-004", some "nl-005",
       some "nl-006", some "nl-007", some "nl-008", some "nl-010",
       some "nl-009"] := by
  simp [loadedSample_eq, unified_view_sql_rows, loader_unified_sql_rows,
    unifiedSelect, joinedRows, leftJoin, sqlEq, toUnified,
    networkLinkRows, linksData, mkNetworkLinkRow, organisationRows,
    organisationsData, mkOrgRow, programmeRows, programmesData, mkProgRow,
    relationshipRows, relationshipsData, mkRelRow, contactRows, contactsData,
    mkContactRow]

/-- C3 (counterexample): the codelist maps the code
`planning_coordinator` to the label `Planning Coordinator`, yet the
unified row for `nl-001` — whose relationship chain does match a
contact — carries `contact_name = "planning_coordinator - Network
Planning"`, and no unified row carries the label-based value
`"Planning Coordinator - Network Planning"`. -/
theorem contact_name_not_codelist_label :
    ("planning_coordinator", "Planning Coordinator") ∈
      contactdetailstypevalue_codes ∧
    (((loadedSample dummyClock dummyClock).1.future_works_unified.getD []).map
        fun u => (u.work_id, u.contact_name)).head? =
      some (some "nl-001", some "planning_coordinator - Network Planning") ∧
    (((loadedSample dummyClock dummyClock).1.future_works_unified.getD []).all
        fun u => u.contact_name != some "Planning Coordinator - Network Planning")
      = true := by
  refine ⟨by decide, by decide, by decide⟩

/-- C3 (amended): for every row produced by the unified join,
`contact_name` is the matched contact's raw `contactdetailstype` code
concatenated with `" - "` and its `departmentname` (when a contact
matched and both columns are non-null), and null when no contact
matched or either column is null. -/
theorem contact_name_is_code_dash_department (nls : List NLRow)
    (orgs : List OrgRow) (progs : List ProgRow) (rels : List RelRow)
    (cds : List ContactRow) (x : JoinTup)
    (hx : x ∈ joinedRows nls orgs progs rels cds)
    (hact : sqlEq x.1.1.1.1.lifecyclestatus (some "active") = true) :
    toUnified x ∈ unifiedSelect "active" nls orgs progs rels cds ∧
    (toUnified x).contact_name =
      (match x.2 with
       | none => none
       | some cd =>
         match cd.contactdetailstype, cd.departmentname with
         | some ty, some dn => some ((ty ++ " - ") ++ dn)
         | _, _ => none) := by
  constructor
  · exact List.mem_map_of_mem toUnified (List.mem_filter.mpr ⟨hx, hact⟩)
  · obtain ⟨⟨⟨⟨nl, ob⟩, pb⟩, rb⟩, cb⟩ := x
    cases cb with
    | none => rfl
    | some cd =>
      cases hty : cd.contactdetailstype <;> cases hdn : cd.departmentname <;>
        simp [toUnified, sqlConcat, hty, hdn]

theorem contact_name_is_code_dash_department_witness :
    toUnified wTup ∈ unifiedSelect "active" [wNl] [wOrg] [] [wRel] [wCd] ∧
    (toUnified wTup).contact_name = some "tcode - tdept" := by
  have h := contact_name_is_code_dash_department [wNl] [wOrg] [] [wRel] [wCd]
    wTup (by decide) (by decide)
  exact ⟨h.1, h.2.trans (by decide)⟩

/-- C4: the unified population has left-outer-join semantics — every
networklink row with lifecycle status `"active"` yields a unified row,
and when its provider id matches no organisation, its programme id
matches no programme, or no relationship links any matched organisation,
the corresponding derived fields of that row are null instead of the row
being dropped. -/
theorem outer_join_keeps_unmatched_links (nls : List NLRow)
    (orgs : List OrgRow) (progs : List ProgRow) (rels : List RelRow)
    (cds : List ContactRow) (nl : NLRow) (hnl : nl ∈ nls)
    (hact : nl.lifecyclestatus = some "active") :
    ∃ u ∈ unifiedSelect "active" nls orgs progs rels cds,
      u.work_id = nl.systemid ∧
      ((∀ o ∈ orgs, sqlEq nl.dataproviderid_fk o.systemid = false) →
        u.organisation_name = none ∧ u.organisation_shortname = none ∧
        u.organisation_type = none ∧ u.swa_code = none) ∧
      ((∀ p ∈ progs, sqlEq nl.programmeid_fk p.systemid = false) →
        u.programme_name = none ∧ u.programme_type = none) ∧
      ((∀ o ∈ orgs, ∀ r ∈ rels, sqlEq o.systemid r.linkedorganisationid = false) →
        u.contact_name = none ∧ u.contact_email = none ∧
        u.contact_phone = none) := by
  obtain ⟨ob, h1, h1n, h1s⟩ :=
    exists_mem_leftJoin nls orgs
      (fun nl o => sqlEq nl.dataproviderid_fk o.systemid) hnl
  obtain ⟨pb, h2, h2n, _⟩ :=
    exists_mem_leftJoin
      (leftJoin nls orgs fun nl o => sqlEq nl.dataproviderid_fk o.systemid)
      progs (fun x p => sqlEq x.1.programmeid_fk p.systemid) h1
  obtain ⟨rb, h3, h3n, _⟩ :=
    exists_mem_leftJoin
      (leftJoin
        (leftJoin nls orgs fun nl o => sqlEq nl.dataproviderid_fk o.systemid)
        progs fun x p => sqlEq x.1.programmeid_fk p.systemid)
      rels
      (fun x r => sqlEq (x.1.2.bind OrgRow.systemid) r.linkedorganisationid) h2
  obtain ⟨cb, h4, h4n, _⟩ :=
    exists_mem_leftJoin
      (leftJoin
        (leftJoin
          (leftJoin nls orgs fun nl o => sqlEq nl.dataproviderid_fk o.systemid)
          progs fun x p => sqlEq x.1.programmeid_fk p.systemid)
        rels fun x r => sqlEq (x.1.2.bind OrgRow.systemid) r.linkedorganisationid)
      cds
      (fun x cd => sqlEq (x.2.bind RelRow.linkedcontactdetailsid) cd.systemid) h3
  have hmem : ((((nl, ob), pb), rb), cb) ∈ joinedRows nls orgs progs rels cds :=
    h4
  have hfil : ((((nl, ob), pb), rb), cb) ∈
      (joinedRows nls orgs progs rels cds).filter fun x =>
        sqlEq x.1.1.1.1.lifecyclestatus (some "active") :=
    List.mem_filter.mpr ⟨hmem, by simp [sqlEq, hact]⟩
  refine ⟨toUnified ((((nl, ob), pb), rb), cb),
    List.mem_map_of_mem toUnified hfil, rfl, ?_, ?_, ?_⟩
  · intro Horg
    have hfo : (orgs.filter fun o => sqlEq nl.dataproviderid_fk o.systemid)
        = [] := by
      refine List.filter_eq_nil_iff.mpr fun o ho => ?_
      simp [Horg o ho]
    have hob : ob = none := h1n hfo
    subst hob
    exact ⟨rfl, rfl, rfl, rfl⟩
  · intro Hprog
    have hfp : (progs.filter fun p =>
        sqlEq (nl, ob).1.programmeid_fk p.systemid) = [] := by
      refine List.filter_eq_nil_iff.mpr fun p hp => ?_
      simp [Hprog p hp]
    have hpb : pb = none := h2n hfp
    subst hpb
    exact ⟨rfl, rfl⟩
  · intro Hchain
    have hfr : (rels.filter fun r =>
        sqlEq ((((nl, ob), pb)).1.2.bind OrgRow.systemid)
          r.linkedorganisationid) = [] := by
      refine List.filter_eq_nil_iff.mpr fun r hr => ?_
      cases ho : ob with
      | none => simp [sqlEq, Option.bind]
      | some o =>
        have : o ∈ orgs ∧
            sqlEq nl.dataproviderid_fk o.systemid = true := h1s o ho
        simp [Hchain o this.1 r hr]
    have hrb : rb = none := h3n hfr
    subst hrb
    have hfc : (cds.filter fun cd =>
        sqlEq (((((nl, ob), pb), (none : Option RelRow))).2.bind
          RelRow.linkedcontactdetailsid) cd.systemid) = [] := by
      refine List.filter_eq_nil_iff.mpr fun cd hcd => ?_
      simp [sqlEq, Option.bind]
    have hcb : cb = none := h4n hfc
    subst hcb
    exact ⟨rfl, rfl, rfl⟩

theorem outer_join_keeps_unmatched_links_witness :
    ∃ u ∈ unifiedSelect "active" [nlOrphan] [] [] [] [],
      u.work_id = some "nl-x" ∧ u.organisation_name = none ∧
      u.programme_name = none ∧ u.contact_name = none := by
  obtain ⟨u, hu, hid, horg, hprog, hcd⟩ :=
    outer_join_keeps_unmatched_links [nlOrphan] [] [] [] [] nlOrphan
      (by decide) rfl
  exact ⟨u, hu, hid, (horg (by simp)).1, (hprog (by simp)).1, (hcd (by simp)).1⟩

/-- C5: the loader writes in the order organisations, contacts,
relationships, programmes, network links, and runs the unified join as
the single final operation; consequently every organisation referenced
by a contact or relationship row, and every programme referenced by a
network link, is inserted strictly before the row that references it.
The first conjunct ties the event sequence to `populate_geopackage`
itself. -/
theorem loader_inserts_in_dependency_order (c : Clock) :
    (∀ g, populate_geopackage c g = runEvents g (insertEvents c)) ∧
    phasesOrdered ((insertEvents c).map evKey) = true ∧
    refsRespectDependencies ((insertEvents c).map evKey) = true ∧
    ((insertEvents c).map evKey).getLast? = some EvKey.unifiedJoin ∧
    ((insertEvents c).map evKey).count EvKey.unifiedJoin = 1 := by
  have hkeys : (insertEvents c).map evKey = sampleEventKeys := rfl
  refine ⟨populate_eq_runEvents c, ?_, ?_, ?_, ?_⟩ <;> rw [hkeys] <;> decide

/-- C6: running the Schema Builder against any filesystem state installs
at the target path a container that does not depend on what was there
before: all base tables and the unified table exist and are empty, both
geometry layers use EPSG:27700, and every codelist table holds exactly
its fixed enumeration. -/
theorem create_discards_and_rebuilds (fs : String → Option GPkg) (c : Clock)
    (path : String) :
    create_geopackage fs c path path = some (freshGpkg c) ∧
    (freshGpkg c).organisation = some [] ∧
    (freshGpkg c).contactdetails = some [] ∧
    (freshGpkg c).relationship_organisationtocontactdetails = some [] ∧
    (freshGpkg c).plannedprogramme = some [] ∧
    (freshGpkg c).networklink = some [] ∧
    (freshGpkg c).future_works_unified = some [] ∧
    (freshGpkg c).networklink_srid = 27700 ∧
    (freshGpkg c).future_works_unified_srid = 27700 ∧
    ((freshGpkg c).lifecyclestatusvalue.getD []).map
        (fun r => (r.systemid, r.value)) =
      lifecyclestatusvalue_codes.map (fun p => (some p.1, some p.2)) ∧
    ((freshGpkg c).organisationtypevalue.getD []).map
        (fun r => (r.systemid, r.value)) =
      organisationtypevalue_codes.map (fun p => (some p.1, some p.2)) ∧
    ((freshGpkg c).contactdetailstypevalue.getD []).map
        (fun r => (r.systemid, r.value)) =
      contactdetailstypevalue_codes.map (fun p => (some p.1, some p.2)) ∧
    ((freshGpkg c).plannedworkstatusvalue.getD []).map
        (fun r => (r.systemid, r.value)) =
      plannedworkstatusvalue_codes.map (fun p => (some p.1, some p.2)) ∧
    ((freshGpkg c).programmetypevalue.getD []).map
        (fun r => (r.systemid, r.value)) =
      programmetypevalue_codes.map (fun p => (some p.1, some p.2)) ∧
    ((freshGpkg c).worktypevalue.getD []).map
        (fun r => (r.systemid, r.value)) =
      worktypevalue_codes.map (fun p => (some p.1, some p.2)) ∧
    ((freshGpkg c).confidencelevelvalue.getD []).map
        (fun r => (r.systemid, r.value)) =
      confidencelevelvalue_codes.map (fun p => (some p.1, some p.2)) ∧
    ((freshGpkg c).utilitytypevalue.getD []).map
        (fun r => (r.systemid, r.value)) =
      utilitytypevalue_codes.map (fun p => (some p.1, some p.2)) ∧
    ((freshGpkg c).materialvalue.getD []).map
        (fun r => (r.systemid, r.value)) =
      materialvalue_codes.map (fun p => (some p.1, some p.2)) ∧
    ((freshGpkg c).installationmethodvalue.getD []).map
        (fun r => (r.systemid, r.value)) =
      installationmethodvalue_codes.map (fun p => (some p.1, some p.2)) ∧
    ((freshGpkg c).locationtypevalue.getD []).map
        (fun r => (r.systemid, r.value)) =
      locationtypevalue_codes.map (fun p => (some p.1, some p.2)) ∧
    ((freshGpkg c).dataprovenancevalue.getD []).map
        (fun r => (r.systemid, r.value)) =
      dataprovenancevalue_codes.map (fun p => (some p.1, some p.2)) ∧
    ((freshGpkg c).measurementunitsvalue.getD []).map
        (fun r => (r.systemid, r.value)) =
      measurementunitsvalue_codes.map (fun p => (some p.1, some p.2)) ∧
    ((freshGpkg c).datasensitivitylevelvalue.getD []).map
        (fun r => (r.systemid, r.value)) =
      datasensitivitylevelvalue_codes.map (fun p => (some p.1, some p.2)) ∧
    ((freshGpkg c).operationalstatusvalue.getD []).map
        (fun r => (r.systemid, r.value)) =
      operationalstatusvalue_codes.map (fun p => (some p.1, some p.2)) ∧
    ((freshGpkg c).cycleschemestatus.getD []).map
        (fun r => (r.systemid, r.value)) =
      cycleschemestatus_codes.map (fun p => (some p.1, some p.2)) ∧
    ((freshGpkg c).conveyancemethodvalue.getD []).map
        (fun r => (r.systemid, r.value, r.applicabledomains)) =
      conveyancemethodvalue_codes.map
        (fun p => (some p.1, some p.2.1, some p.2.2)) := by
  refine ⟨by simp [create_geopackage], rfl, rfl, rfl, rfl, rfl, rfl, rfl, rfl,
    rfl, rfl, rfl, rfl, rfl, rfl, rfl, rfl, rfl, rfl, rfl, rfl, rfl, rfl,
    rfl, rfl, rfl⟩

/-- C7: the end-to-end scenario — schema build then sample load — leaves
5 organisation rows, exactly the fixed sample network links (in
insertion order), a unified table with one row per active-status
network link, and the hard-coded utility-type distribution (2 gas, 2
water, 2 electricity, 2 telecommunications, 1 cycling infrastructure,
1 other). -/
theorem end_to_end_sample_counts (c₁ c₂ : Clock) :
    (loadedSample c₁ c₂).2 = none ∧
    ((loadedSample c₁ c₂).1.organisation.getD []).length = 5 ∧
    ((loadedSample c₁ c₂).1.networklink.getD []).map NLRow.systemid =
      [some "nl-001", some "nl-002", some "nl-003", some "nl-004", some "nl-005",
       some "nl-006", some "nl-007", some "nl-008", some "nl-010",
       some "nl-009"] ∧
    ((loadedSample c₁ c₂).1.future_works_unified.getD []).length =
      (((loadedSample c₁ c₂).1.networklink.getD []).filter fun nl =>
          sqlEq nl.lifecyclestatus (some "active")).length ∧
    utilityTypeCount (loadedSample c₁ c₂).1 "gas" = 2 ∧
    utilityTypeCount (loadedSample c₁ c₂).1 "water" = 2 ∧
    utilityTypeCount (loadedSample c₁ c₂).1 "electricity" = 2 ∧
    utilityTypeCount (loadedSample c₁ c₂).1 "telecommunications" = 2 ∧
    utilityTypeCount (loadedSample c₁ c₂).1 "cycling_infrastructure" = 1 ∧
    utilityTypeCount (loadedSample c₁ c₂).1 "other" = 1 := by
  simp [loadedSample_eq, utilityTypeCount, unifiedSelect, joinedRows, leftJoin,
    sqlEq, toUnified, networkLinkRows, linksData, mkNetworkLinkRow,
    organisationRows, organisationsData, mkOrgRow, programmeRows,
    programmesData, mkProgRow, relationshipRows, relationshipsData, mkRelRow,
    contactRows, contactsData, mkContactRow]

/-- C8: the sample row inserted with coordinates
`[(430100, 433875), (430300, 433875)]` reads back with exactly those two
vertices in that order in the networklink layer declared on EPSG:27700;
and in general any supplied coordinate sequence of length at least two is
accepted and stored vertex for vertex in order. -/
theorem geometry_roundtrip (c₁ c₂ : Clock) :
    (((loadedSample c₁ c₂).1.networklink.getD []).filter fun nl =>
        nl.systemid == some "nl-001").map NLRow.geom =
      [[(430100, 433875), (430300, 433875)]] ∧
    (loadedSample c₁ c₂).1.networklink_srid = 27700 ∧
    ∀ (c : Clock) (d : LinkData), 2 ≤ d.coords.length →
      (mkNetworkLinkRow c d).geom = d.coords :=
  ⟨rfl, rfl, fun _ _ _ => rfl⟩

theorem geometry_roundtrip_witness :
    2 ≤ wLink.coords.length ∧
    (mkNetworkLinkRow dummyClock wLink).geom = wLink.coords :=
  ⟨by decide, (geometry_roundtrip dummyClock dummyClock).2.2 dummyClock wLink
    (by decide)⟩

/-- C9: invoking the loader against a path with no container fails
before writing anything (the filesystem is unchanged and the process
exits non-zero), and running the population against a container missing
an expected table aborts at the first failed table access, leaving all
later-phase tables untouched. -/
theorem loader_fails_without_container (fs : String → Option GPkg) (c : Clock)
    (path : String) (g : GPkg) :
    (fs path = none → populate_main fs c path = (fs, false)) ∧
    (g.contactdetails = none →
      (populate_geopackage c g).2.isSome = true ∧
      (populate_geopackage c g).1.relationship_organisationtocontactdetails =
        g.relationship_organisationtocontactdetails ∧
      (populate_geopackage c g).1.plannedprogramme = g.plannedprogramme ∧
      (populate_geopackage c g).1.networklink = g.networklink ∧
      (populate_geopackage c g).1.future_works_unified =
        g.future_works_unified) := by
  constructor
  · intro h
    simp [populate_main, h]
  · intro h
    cases ho : g.organisation with
    | none => simp [populate_geopackage, populate_organisations, ho]
    | some cur =>
      have h1 : populate_organisations c g =
          some { g with organisation := some (cur ++ organisationRows c) } := by
        simp [populate_organisations, ho]
      simp [populate_geopackage, h1, populate_contact_details, h]

theorem loader_fails_without_container_witness :
    populate_main emptyFs dummyClock "uk_future_works_example.gpkg" =
      (emptyFs, false) ∧
    (populate_geopackage dummyClock noContactsGpkg).2.isSome = true ∧
    (populate_geopackage dummyClock noContactsGpkg).1.networklink =
      noContactsGpkg.networklink := by
  have h := loader_fails_without_container emptyFs dummyClock
    "uk_future_works_example.gpkg" noContactsGpkg
  exact ⟨h.1 rfl, (h.2 rfl).1, (h.2 rfl).2.2.2.1⟩

/-- C10: every row the loader inserts into the five base tables has
`lifecyclestatus = "active"` (lowercase), so the unified filter on
`'active'` selects every sample network link while a filter on
`'Active'` selects none of them. -/
theorem sample_rows_all_lifecycle_active (c₁ c₂ : Clock) :
    ((loadedSample c₁ c₂).1.organisation.getD []).all
        (fun r => r.lifecyclestatus == some "active") = true ∧
    ((loadedSample c₁ c₂).1.contactdetails.getD []).all
        (fun r => r.lifecyclestatus == some "active") = true ∧
    ((loadedSample c₁ c₂).1.relationship_organisationtocontactdetails.getD
        []).all (fun r => r.lifecyclestatus == some "active") = true ∧
    ((loadedSample c₁ c₂).1.plannedprogramme.getD []).all
        (fun r => r.lifecyclestatus == some "active") = true ∧
    ((loadedSample c₁ c₂).1.networklink.getD []).all
        (fun r => r.lifecyclestatus == some "active") = true ∧
    (((loadedSample c₁ c₂).1.networklink.getD []).filter fun nl =>
        sqlEq nl.lifecyclestatus (some "Active")) = [] ∧
    (((loadedSample c₁ c₂).1.networklink.getD []).filter fun nl =>
        sqlEq nl.lifecyclestatus (some "active")).length =
      ((loadedSample c₁ c₂).1.networklink.getD []).length ∧
    ((loadedSample c₁ c₂).1.future_works_unified.getD []).length =
      ((loadedSample c₁ c₂).1.networklink.getD []).length := by
  simp [loadedSample_eq, unifiedSelect, joinedRows, leftJoin, sqlEq, toUnified,
    networkLinkRows, linksData, mkNetworkLinkRow, organisationRows,
    organisationsData, mkOrgRow, programmeRows, programmesData, mkProgRow,
    relationshipRows, relationshipsData, mkRelRow, contactRows, contactsData,
    mkContactRow]

end UKFW
